import Mathlib

/-!
Shallow embedding of the trhttp REST client core
(`trhttp/rest/client.py`, `trhttp/errors.py`).

Bytes are modelled as `List Char`, header mappings as association lists
with Python-dict update semantics, and exceptions as explicit sum-type
outcomes.  Stateful methods of `RestClient` become functions from an
explicit client state (plus the observable outcomes of their transport
calls) to a result record carrying the new state and the observable
events (forced authentications, request attempts, bytes sent).
-/

/-- Header mapping (Python `dict` of header name to value), modelled as an
association list whose lookup/update behaviour mirrors `dict`. -/
abbrev Headers := List (String × String)

/-- Python `d[k]` lookup (as an `Option`): the first binding of `k` wins,
matching dict semantics under the no-duplicate invariant `dict` keeps. -/
def hdrGet (h : Headers) (k : String) : Option String :=
  match h with
  | [] => none
  | p :: t => if p.1 == k then some p.2 else hdrGet t k

/-- Python `d[k] = v`: overwrite the binding if present, else append it. -/
def hdrSet (h : Headers) (k v : String) : Headers :=
  if h.any (fun p => p.1 == k) then
    h.map (fun p => if p.1 == k then (k, v) else p)
  else
    h ++ [(k, v)]

/-- Python `del d[k]`. -/
def hdrDel (h : Headers) (k : String) : Headers :=
  h.filter (fun p => !(p.1 == k))

/-- Python `d.update(upd)`: set every binding of `upd` in `d`. -/
def hdrUpdate (h : Headers) (upd : Headers) : Headers :=
  upd.foldl (fun acc p => hdrSet acc p.1 p.2) h

/-- `trhttp.errors.HttpError`: status, reason, response body, response
headers (the four constructor arguments stored on the exception). -/
structure HttpError where
  status : Nat
  reason : String
  response_data : List Char
  response_headers : Headers
deriving DecidableEq

/-- An HTTP response as observed by the client: status code, reason
phrase, the bytes `response.read()` yields, and `response.getheaders()`. -/
structure HttpResponse where
  status : Nat
  reason : String
  body : List Char
  headers : Headers
deriving DecidableEq

/-- `RestClient.validate_response`: returns `some error` when the method
raises `HttpError`, `none` when it returns normally.  The source raises
iff `response.status < 200 or response.status > 299`, with the error
built from the response's status, reason, body and headers. -/
def validate_response (r : HttpResponse) : Option HttpError :=
  if r.status < 200 || r.status > 299 then
    some ⟨r.status, r.reason, r.body, r.headers⟩
  else
    none

/-- C1: `validate_response` raises nothing for status codes in [200, 299]
and for all other status codes raises an `HttpError` carrying exactly the
response's status, reason, body and headers. -/
theorem validate_response_spec (r : HttpResponse) :
    (200 ≤ r.status ∧ r.status ≤ 299 → validate_response r = none) ∧
    (r.status < 200 ∨ 299 < r.status →
      validate_response r = some ⟨r.status, r.reason, r.body, r.headers⟩) := by
  constructor
  · intro h
    simp [validate_response]
    omega
  · intro h
    have hc : (decide (r.status < 200) || decide (r.status > 299)) = true := by
      simp
      omega
    simp [validate_response, hc]

/-- Witness for C1 at concrete responses with statuses 204 and 404. -/
theorem validate_response_spec_witness :
    validate_response ⟨204, "No Content", [], []⟩ = none ∧
    validate_response ⟨404, "Not Found", ['x'], [("Server", "t")]⟩ =
      some ⟨404, "Not Found", ['x'], [("Server", "t")]⟩ := by
  constructor
  · exact (validate_response_spec ⟨204, "No Content", [], []⟩).1
      (by constructor <;> decide)
  · exact (validate_response_spec ⟨404, "Not Found", ['x'], [("Server", "t")]⟩).2
      (by right; decide)

/-- Outcome of one `_send_request` call as seen by the retry loop:
a returned response, a raised `HttpError`, or a raised transient
(non-`HttpError`) exception, identified by a numeric id. -/
inductive AttemptResult where
  | success (r : HttpResponse)
  | httpError (e : HttpError)
  | transientError (errId : Nat)
deriving DecidableEq

/-- Overall outcome of `_retry_send_request`, together with the number of
attempts (`_send_request` calls) made.  `unboundLocalError` models the
`raise last_error` line executing while `last_error` was never assigned
(Python raises `UnboundLocalError` there). -/
inductive RetryOutcome where
  | returned (r : HttpResponse) (attemptsMade : Nat)
  | raisedHttp (e : HttpError) (attemptsMade : Nat)
  | raisedTransient (errId : Nat) (attemptsMade : Nat)
  | unboundLocalError (attemptsMade : Nat)
deriving DecidableEq

/-- The `for retry in range(self.retries)` loop of
`RestClient._retry_send_request`.  `attempt i p` gives, for the attempt
with index `i` run while the body's read position is `p`, the attempt's
outcome and the body position it leaves behind.  `reset` is `some p0`
when the body had `tell`/`seek` (so the captured lambda seeks back to
`p0` after every transient failure), `none` otherwise.  Returns the list
of body positions at the start of each attempt made, and the outcome. -/
def retryLoop (attempt : Nat → Nat → AttemptResult × Nat)
    (reset : Option Nat) :
    Nat → Nat → Nat → Option Nat → List Nat × RetryOutcome
  | 0, idx, _, none => ([], RetryOutcome.unboundLocalError idx)
  | 0, idx, _, some e => ([], RetryOutcome.raisedTransient e idx)
  | budget+1, idx, pos, _ =>
      match attempt idx pos with
      | (AttemptResult.success r, _) =>
          ([pos], RetryOutcome.returned r (idx+1))
      | (AttemptResult.httpError e, _) =>
          ([pos], RetryOutcome.raisedHttp e (idx+1))
      | (AttemptResult.transientError t, posAfter) =>
          let rest := retryLoop attempt reset budget (idx+1)
            (reset.getD posAfter) (some t)
          (pos :: rest.1, rest.2)

/-- `RestClient._retry_send_request` with `reset=None`: when the data has
`tell` and `seek` (`seekable`), the current position `pos0` is captured
and the reset lambda seeks back to it; the loop then runs `retries`
times (`range` of a non-positive int is empty, hence `Int.toNat`). -/
def retry_send_request (retries : Int) (seekable : Bool)
    (attempt : Nat → Nat → AttemptResult × Nat) (pos0 : Nat) :
    List Nat × RetryOutcome :=
  retryLoop attempt (if seekable then some pos0 else none)
    retries.toNat 0 pos0 none

/-- Unfolding lemma: an exhausted budget raises the recorded last error,
or `UnboundLocalError` when none was ever recorded. -/
theorem retryLoop_zero (attempt : Nat → Nat → AttemptResult × Nat)
    (reset : Option Nat) (idx pos : Nat) (lastErr : Option Nat) :
    retryLoop attempt reset 0 idx pos lastErr =
      ([], match lastErr with
           | none => RetryOutcome.unboundLocalError idx
           | some e => RetryOutcome.raisedTransient e idx) := by
  cases lastErr <;> rfl

/-- Unfolding lemma: a successful attempt returns its response. -/
theorem retryLoop_succ_success (attempt : Nat → Nat → AttemptResult × Nat)
    (reset : Option Nat) (b idx pos pa : Nat) (lastErr : Option Nat)
    (r : HttpResponse)
    (hap : attempt idx pos = (AttemptResult.success r, pa)) :
    retryLoop attempt reset (b+1) idx pos lastErr =
      ([pos], RetryOutcome.returned r (idx+1)) := by
  simp only [retryLoop, hap]

/-- Unfolding lemma: an attempt raising `HttpError` re-raises it at once. -/
theorem retryLoop_succ_http (attempt : Nat → Nat → AttemptResult × Nat)
    (reset : Option Nat) (b idx pos pa : Nat) (lastErr : Option Nat)
    (e : HttpError)
    (hap : attempt idx pos = (AttemptResult.httpError e, pa)) :
    retryLoop attempt reset (b+1) idx pos lastErr =
      ([pos], RetryOutcome.raisedHttp e (idx+1)) := by
  simp only [retryLoop, hap]

/-- Unfolding lemma: a transient failure records the error, runs the
reset lambda when one was captured, and continues the loop. -/
theorem retryLoop_succ_transient (attempt : Nat → Nat → AttemptResult × Nat)
    (reset : Option Nat) (b idx pos pa t : Nat) (lastErr : Option Nat)
    (hap : attempt idx pos = (AttemptResult.transientError t, pa)) :
    retryLoop attempt reset (b+1) idx pos lastErr =
      (pos :: (retryLoop attempt reset b (idx+1) (reset.getD pa) (some t)).1,
       (retryLoop attempt reset b (idx+1) (reset.getD pa) (some t)).2) := by
  simp only [retryLoop, hap]

/-- Helper for C2: a run of the loop in which every attempt raises a
transient error makes exactly `budget+1` attempts and ends by raising
the transient error of the last attempt. -/
theorem retryLoop_all_transient (attempt : Nat → Nat → AttemptResult × Nat)
    (reset : Option Nat) (errs : Nat → Nat)
    (hA : ∀ i p, (attempt i p).1 = AttemptResult.transientError (errs i)) :
    ∀ (budget idx pos : Nat) (lastErr : Option Nat),
      (retryLoop attempt reset (budget+1) idx pos lastErr).2 =
        RetryOutcome.raisedTransient (errs (idx + budget)) (idx + budget + 1) ∧
      (retryLoop attempt reset (budget+1) idx pos lastErr).1.length = budget + 1 := by
  intro budget
  induction budget with
  | zero =>
      intro idx pos lastErr
      have h := hA idx pos
      rcases hap : attempt idx pos with ⟨res, posAfter⟩
      rw [hap] at h
      simp at h
      subst h
      rw [retryLoop_succ_transient attempt reset 0 idx pos posAfter
        (errs idx) lastErr hap]
      rw [retryLoop_zero]
      simp
  | succ b ih =>
      intro idx pos lastErr
      have h := hA idx pos
      rcases hap : attempt idx pos with ⟨res, posAfter⟩
      rw [hap] at h
      simp at h
      subst h
      rw [retryLoop_succ_transient attempt reset (b+1) idx pos posAfter
        (errs idx) lastErr hap]
      have hrec := ih (idx+1) (reset.getD posAfter) (some (errs idx))
      simp only [hrec.1, hrec.2, List.length_cons]
      constructor
      · congr 2 <;> omega
      · trivial

/-- C2: for every retry budget N >= 1, if every attempt raises a
transient (non-HttpError) exception, `_retry_send_request` makes exactly
N attempts and finally raises the very exception of attempt N. -/
theorem retry_exhausts_budget_raises_last (retries : Int) (seekable : Bool)
    (attempt : Nat → Nat → AttemptResult × Nat) (pos0 : Nat)
    (errs : Nat → Nat) (hN : 1 ≤ retries)
    (hA : ∀ i p, (attempt i p).1 = AttemptResult.transientError (errs i)) :
    (retry_send_request retries seekable attempt pos0).2 =
      RetryOutcome.raisedTransient (errs (retries.toNat - 1)) retries.toNat ∧
    (retry_send_request retries seekable attempt pos0).1.length =
      retries.toNat := by
  have hk : retries.toNat = (retries.toNat - 1) + 1 := by omega
  have h := retryLoop_all_transient attempt
    (if seekable then some pos0 else none) errs hA
    (retries.toNat - 1) 0 pos0 none
  unfold retry_send_request
  rw [hk]
  constructor
  · rw [h.1]
    norm_num
  · exact h.2

/-- Witness for C2 with budget 2 and attempts failing with errors 10, 11. -/
theorem retry_exhausts_budget_raises_last_witness :
    (retry_send_request 2 false
      (fun i _ => (AttemptResult.transientError (i + 10), 0)) 0).2 =
      RetryOutcome.raisedTransient 11 2 ∧
    (retry_send_request 2 false
      (fun i _ => (AttemptResult.transientError (i + 10), 0)) 0).1.length = 2 := by
  have h := retry_exhausts_budget_raises_last 2 false
    (fun i _ => (AttemptResult.transientError (i + 10), 0)) 0
    (fun i => i + 10) (by decide) (fun i p => rfl)
  simpa using h

/-- Helper for C3: if attempts before index `j` (relative to `idx`) are
transient and attempt `idx + j` raises `HttpError e`, the loop stops at
attempt `idx + j` and re-raises `e`, whatever budget remains. -/
theorem retryLoop_http_stops (attempt : Nat → Nat → AttemptResult × Nat)
    (reset : Option Nat) (e : HttpError) :
    ∀ (j budget idx pos : Nat) (lastErr : Option Nat),
      j < budget →
      (∀ i p, i < j →
        ∃ t, (attempt (idx + i) p).1 = AttemptResult.transientError t) →
      (∀ p, (attempt (idx + j) p).1 = AttemptResult.httpError e) →
      (retryLoop attempt reset budget idx pos lastErr).2 =
        RetryOutcome.raisedHttp e (idx + j + 1) ∧
      (retryLoop attempt reset budget idx pos lastErr).1.length = j + 1 := by
  intro j
  induction j with
  | zero =>
      intro budget idx pos lastErr hb hpre hj
      obtain ⟨b, rfl⟩ : ∃ b, budget = b + 1 := ⟨budget - 1, by omega⟩
      have h := hj pos
      rcases hap : attempt (idx + 0) pos with ⟨res, pa⟩
      rw [hap] at h
      simp at h
      subst h
      simp only [Nat.add_zero] at hap
      rw [retryLoop_succ_http attempt reset b idx pos pa lastErr e hap]
      simp
  | succ j ih =>
      intro budget idx pos lastErr hb hpre hj
      obtain ⟨b, rfl⟩ : ∃ b, budget = b + 1 := ⟨budget - 1, by omega⟩
      obtain ⟨t, ht⟩ := hpre 0 pos (by omega)
      rcases hap : attempt (idx + 0) pos with ⟨res, pa⟩
      rw [hap] at ht
      simp at ht
      subst ht
      simp only [Nat.add_zero] at hap
      rw [retryLoop_succ_transient attempt reset b idx pos pa t lastErr hap]
      have hpre' : ∀ i p, i < j →
          ∃ t, (attempt (idx + 1 + i) p).1 = AttemptResult.transientError t := by
        intro i p hi
        have := hpre (i + 1) p (by omega)
        have harith : idx + (i + 1) = idx + 1 + i := by omega
        rw [harith] at this
        exact this
      have hj' : ∀ p, (attempt (idx + 1 + j) p).1 = AttemptResult.httpError e := by
        intro p
        have := hj p
        have harith : idx + (j + 1) = idx + 1 + j := by omega
        rw [harith] at this
        exact this
      have hrec := ih b (idx + 1) (reset.getD pa) (some t) (by omega) hpre' hj'
      constructor
      · rw [hrec.1]
        congr 1
        omega
      · simp only [List.length_cons, hrec.2]

/-- C3: an attempt that raises a structured `HttpError` is never retried:
the error propagates at once and no further attempt is made, no matter
how much retry budget remains. -/
theorem retry_http_error_immediate (retries : Int) (seekable : Bool)
    (attempt : Nat → Nat → AttemptResult × Nat) (pos0 : Nat)
    (j : Nat) (e : HttpError) (hj : (j : Int) < retries)
    (hpre : ∀ i p, i < j →
      ∃ t, (attempt i p).1 = AttemptResult.transientError t)
    (hhttp : ∀ p, (attempt j p).1 = AttemptResult.httpError e) :
    (retry_send_request retries seekable attempt pos0).2 =
      RetryOutcome.raisedHttp e (j + 1) ∧
    (retry_send_request retries seekable attempt pos0).1.length = j + 1 := by
  have hb : j < retries.toNat := by omega
  have h := retryLoop_http_stops attempt
    (if seekable then some pos0 else none) e j retries.toNat 0 pos0 none hb
    (by simpa using hpre) (by simpa using hhttp)
  unfold retry_send_request
  simpa using h

/-- Witness for C3: a 500 error on the first attempt with budget 5
propagates after exactly one attempt. -/
theorem retry_http_error_immediate_witness :
    (retry_send_request 5 false
      (fun _ _ => (AttemptResult.httpError ⟨500, "ISE", [], []⟩, 0)) 0).2 =
      RetryOutcome.raisedHttp ⟨500, "ISE", [], []⟩ 1 ∧
    (retry_send_request 5 false
      (fun _ _ => (AttemptResult.httpError ⟨500, "ISE", [], []⟩, 0)) 0).1.length
      = 1 := by
  have h := retry_http_error_immediate 5 false
    (fun _ _ => (AttemptResult.httpError ⟨500, "ISE", [], []⟩, 0)) 0 0
    ⟨500, "ISE", [], []⟩ (by decide) (fun i p hip => absurd hip (by omega))
    (fun p => rfl)
  simpa using h

/-- Helper for C7: in a run whose body is seekable (reset lambda seeking
back to `p0`) and whose current position is `p0`, every attempt starts
at position `p0`. -/
theorem retryLoop_positions_reset (attempt : Nat → Nat → AttemptResult × Nat)
    (p0 : Nat) :
    ∀ (budget idx : Nat) (lastErr : Option Nat),
      ((retryLoop attempt (some p0) budget idx p0 lastErr).1).all
        (fun x => x == p0) = true := by
  intro budget
  induction budget with
  | zero =>
      intro idx lastErr
      rw [retryLoop_zero]
      rfl
  | succ b ih =>
      intro idx lastErr
      rcases hap : attempt idx p0 with ⟨res, pa⟩
      cases res with
      | success r =>
          rw [retryLoop_succ_success attempt (some p0) b idx p0 pa lastErr r hap]
          simp
      | httpError e =>
          rw [retryLoop_succ_http attempt (some p0) b idx p0 pa lastErr e hap]
          simp
      | transientError t =>
          rw [retryLoop_succ_transient attempt (some p0) b idx p0 pa t lastErr hap]
          simp only [Option.getD_some, List.all_cons, beq_self_eq_true,
            Bool.true_and]
          exact ih (idx + 1) (some t)

/-- C7: with a seekable body, the read position at the start of every
attempt equals the position `pos0` captured before attempt 1 (the
trace component lists the position at the start of each attempt). -/
theorem retry_seek_resets_position (retries : Int)
    (attempt : Nat → Nat → AttemptResult × Nat) (pos0 : Nat) :
    ((retry_send_request retries true attempt pos0).1).all
      (fun x => x == pos0) = true := by
  unfold retry_send_request
  simpa using retryLoop_positions_reset attempt pos0 retries.toNat 0 none

/-- C10: a retry budget of 0 (or negative) makes zero attempts and hits
`raise last_error` with `last_error` unassigned (UnboundLocalError). -/
theorem retry_zero_budget_unbound_local (retries : Int) (seekable : Bool)
    (attempt : Nat → Nat → AttemptResult × Nat) (pos0 : Nat)
    (h : retries ≤ 0) :
    retry_send_request retries seekable attempt pos0 =
      ([], RetryOutcome.unboundLocalError 0) := by
  have hz : retries.toNat = 0 := by omega
  unfold retry_send_request
  rw [hz, retryLoop_zero]

/-- Witness for C10 at budget 0 with an attempt that would succeed. -/
theorem retry_zero_budget_unbound_local_witness :
    retry_send_request 0 false
      (fun _ _ => (AttemptResult.success ⟨200, "OK", [], []⟩, 0)) 0 =
      ([], RetryOutcome.unboundLocalError 0) :=
  retry_zero_budget_unbound_local 0 false
    (fun _ _ => (AttemptResult.success ⟨200, "OK", [], []⟩, 0)) 0 (by decide)

/-- Client state relevant to `_send_request`: whether an authenticator is
configured, the cached `auth_headers`, the recorded `last_http_error`,
and a generation counter for the connection handle (incremented exactly
when the connection is closed and replaced by `_create_connection`). -/
structure ClientState where
  hasAuthenticator : Bool
  authHeaders : Option Headers
  lastHttpError : Option HttpError
  connectionGen : Nat
deriving DecidableEq

/-- Observable outcome of one `_do_request` call: either the transport
returned a response, or a transient (non-`HttpError`) exception was
raised while sending or reading. -/
inductive DoResult where
  | gotResponse (r : HttpResponse)
  | raisedExc (errId : Nat)
deriving DecidableEq

/-- How one `_send_request` call terminates. -/
inductive SendOutcome where
  | returned (r : HttpResponse)
  | raisedHttp (e : HttpError)
  | raisedTransient (errId : Nat)
deriving DecidableEq

/-- Result record of one `_send_request` call: termination mode, the new
client state, the number of `_authenticate(force=True)` calls, the
number of `_do_request` calls, and the header mapping used by the
401-recovery resend (when one happened). -/
structure SendResult where
  outcome : SendOutcome
  state : ClientState
  forcedAuths : Nat
  doRequests : Nat
  resendHeaders : Option Headers
deriving DecidableEq

/-- The `retry` guard of the `except HttpError` branch in
`_send_request`: `error.status == 401 and self.authenticator and
(self.last_http_error is None or self.last_http_error.status != 401)`. -/
def retry_condition (st : ClientState) (error : HttpError) : Bool :=
  error.status == 401 && st.hasAuthenticator &&
    (match st.lastHttpError with
     | none => true
     | some le => !(le.status == 401))

/-- The try/except send-and-validate sequence of `RestClient._send_request`
(lines 218-247), with the header mapping already prepared.  `first` is the
observable outcome of the initial `_do_request`; `refreshed` is what
`authenticator.authenticate(self, force=True)` returns if the 401 branch
forces re-authentication; `second` is the outcome of the resend, used
only when the branch resends.  Exceptions raised inside the
`except HttpError` handler (the resend and its validation) are not
caught by the `except Exception` clause of the same `try`, so they
propagate without the connection being replaced. -/
def send_request_step (st : ClientState) (headers : Headers)
    (first : DoResult) (refreshed : Headers) (second : DoResult) :
    SendResult :=
  match first with
  | DoResult.raisedExc t =>
      { outcome := SendOutcome.raisedTransient t,
        state := { st with connectionGen := st.connectionGen + 1 },
        forcedAuths := 0, doRequests := 1, resendHeaders := none }
  | DoResult.gotResponse r =>
    match validate_response r with
    | none =>
        { outcome := SendOutcome.returned r,
          state := { st with lastHttpError := none },
          forcedAuths := 0, doRequests := 1, resendHeaders := none }
    | some error =>
      let retry := retry_condition st error
      let st1 := { st with lastHttpError := some error }
      if retry then
        let st2 := { st1 with authHeaders := some refreshed }
        let hdrs2 := hdrUpdate headers refreshed
        match second with
        | DoResult.raisedExc t =>
            { outcome := SendOutcome.raisedTransient t, state := st2,
              forcedAuths := 1, doRequests := 2, resendHeaders := some hdrs2 }
        | DoResult.gotResponse r2 =>
          match validate_response r2 with
          | none =>
              { outcome := SendOutcome.returned r2,
                state := { st2 with lastHttpError := none },
                forcedAuths := 1, doRequests := 2,
                resendHeaders := some hdrs2 }
          | some e2 =>
              { outcome := SendOutcome.raisedHttp e2, state := st2,
                forcedAuths := 1, doRequests := 2,
                resendHeaders := some hdrs2 }
      else
        { outcome := SendOutcome.raisedHttp error, state := st1,
          forcedAuths := 0, doRequests := 1, resendHeaders := none }

/-- C4: with an authenticator configured, a 401 validation failure whose
recorded `last_http_error` is absent or not a 401 triggers exactly one
forced re-authentication, a merge of the refreshed headers into the
request headers, and exactly one resend; when the recorded last error is
already a 401, no re-authentication happens and the `HttpError`
propagates. -/
theorem send_first_401_reauth_and_resend (st : ClientState)
    (headers refreshed : Headers) (r : HttpResponse) (second : DoResult)
    (hAuth : st.hasAuthenticator = true) (hStatus : r.status = 401) :
    ((match st.lastHttpError with
      | none => True
      | some le => le.status ≠ 401) →
      (send_request_step st headers (DoResult.gotResponse r) refreshed
        second).forcedAuths = 1 ∧
      (send_request_step st headers (DoResult.gotResponse r) refreshed
        second).doRequests = 2 ∧
      (send_request_step st headers (DoResult.gotResponse r) refreshed
        second).resendHeaders = some (hdrUpdate headers refreshed)) ∧
    (∀ le, st.lastHttpError = some le → le.status = 401 →
      (send_request_step st headers (DoResult.gotResponse r) refreshed
        second).forcedAuths = 0 ∧
      (send_request_step st headers (DoResult.gotResponse r) refreshed
        second).doRequests = 1 ∧
      (send_request_step st headers (DoResult.gotResponse r) refreshed
        second).outcome =
        SendOutcome.raisedHttp ⟨r.status, r.reason, r.body, r.headers⟩) := by
  have hv : validate_response r =
      some ⟨r.status, r.reason, r.body, r.headers⟩ := by
    simp [validate_response, hStatus]
  constructor
  · intro hle
    have hrc : retry_condition st ⟨r.status, r.reason, r.body, r.headers⟩
        = true := by
      cases hl : st.lastHttpError with
      | none => simp [retry_condition, hStatus, hAuth, hl]
      | some le =>
          rw [hl] at hle
          simp [retry_condition, hStatus, hAuth, hl, hle]
    cases second with
    | gotResponse r2 =>
        cases hv2 : validate_response r2 with
        | none => simp [send_request_step, hv, hrc, hv2]
        | some e2 => simp [send_request_step, hv, hrc, hv2]
    | raisedExc t => simp [send_request_step, hv, hrc]
  · intro le hl h401
    have hrc : retry_condition st ⟨r.status, r.reason, r.body, r.headers⟩
        = false := by
      simp [retry_condition, hl, h401]
    simp [send_request_step, hv, hrc]

/-- Witness for C4: both halves at concrete states, a fresh client
(no recorded error) and a client whose last recorded error is a 401. -/
theorem send_first_401_reauth_and_resend_witness :
    ((send_request_step ⟨true, none, none, 0⟩ [("A", "1")]
        (DoResult.gotResponse ⟨401, "Unauthorized", [], []⟩)
        [("Authorization", "t2")]
        (DoResult.gotResponse ⟨200, "OK", [], []⟩)).forcedAuths = 1 ∧
      (send_request_step ⟨true, none, none, 0⟩ [("A", "1")]
        (DoResult.gotResponse ⟨401, "Unauthorized", [], []⟩)
        [("Authorization", "t2")]
        (DoResult.gotResponse ⟨200, "OK", [], []⟩)).doRequests = 2 ∧
      (send_request_step ⟨true, none, none, 0⟩ [("A", "1")]
        (DoResult.gotResponse ⟨401, "Unauthorized", [], []⟩)
        [("Authorization", "t2")]
        (DoResult.gotResponse ⟨200, "OK", [], []⟩)).resendHeaders =
        some (hdrUpdate [("A", "1")] [("Authorization", "t2")])) ∧
    ((send_request_step ⟨true, none, some ⟨401, "U", [], []⟩, 0⟩ [("A", "1")]
        (DoResult.gotResponse ⟨401, "Unauthorized", [], []⟩)
        [("Authorization", "t2")]
        (DoResult.gotResponse ⟨200, "OK", [], []⟩)).forcedAuths = 0 ∧
      (send_request_step ⟨true, none, some ⟨401, "U", [], []⟩, 0⟩ [("A", "1")]
        (DoResult.gotResponse ⟨401, "Unauthorized", [], []⟩)
        [("Authorization", "t2")]
        (DoResult.gotResponse ⟨200, "OK", [], []⟩)).doRequests = 1 ∧
      (send_request_step ⟨true, none, some ⟨401, "U", [], []⟩, 0⟩ [("A", "1")]
        (DoResult.gotResponse ⟨401, "Unauthorized", [], []⟩)
        [("Authorization", "t2")]
        (DoResult.gotResponse ⟨200, "OK", [], []⟩)).outcome =
        SendOutcome.raisedHttp ⟨401, "Unauthorized", [], []⟩) := by
  constructor
  · exact (send_first_401_reauth_and_resend ⟨true, none, none, 0⟩
      [("A", "1")] [("Authorization", "t2")] ⟨401, "Unauthorized", [], []⟩
      (DoResult.gotResponse ⟨200, "OK", [], []⟩) rfl rfl).1 trivial
  · exact (send_first_401_reauth_and_resend
      ⟨true, none, some ⟨401, "U", [], []⟩, 0⟩
      [("A", "1")] [("Authorization", "t2")] ⟨401, "Unauthorized", [], []⟩
      (DoResult.gotResponse ⟨200, "OK", [], []⟩) rfl rfl).2
      ⟨401, "U", [], []⟩ rfl rfl

/-- Counterexample to C5 as stated: a 401-triggered resend failing with a
different error (500) ends the sequence, yet `last_http_error` still
holds the first 401 error, not the most recent validation failure. -/
theorem send_last_error_claim_cex :
    (send_request_step ⟨true, none, none, 0⟩ []
      (DoResult.gotResponse ⟨401, "Unauthorized", [], []⟩)
      [("Authorization", "t2")]
      (DoResult.gotResponse ⟨500, "ISE", [], []⟩)).outcome =
      SendOutcome.raisedHttp ⟨500, "ISE", [], []⟩ ∧
    (send_request_step ⟨true, none, none, 0⟩ []
      (DoResult.gotResponse ⟨401, "Unauthorized", [], []⟩)
      [("Authorization", "t2")]
      (DoResult.gotResponse ⟨500, "ISE", [], []⟩)).state.lastHttpError ≠
      some ⟨500, "ISE", [], []⟩ ∧
    (send_request_step ⟨true, none, none, 0⟩ []
      (DoResult.gotResponse ⟨401, "Unauthorized", [], []⟩)
      [("Authorization", "t2")]
      (DoResult.gotResponse ⟨500, "ISE", [], []⟩)).state.lastHttpError =
      some ⟨401, "Unauthorized", [], []⟩ := by
  refine ⟨by decide, by decide, by decide⟩

/-- C5 (amended): after a completed send/validate sequence,
`last_http_error` is cleared when the final validation succeeded and
holds the first validation failure's error when the sequence ended in a
validation failure; in particular, when a 401-triggered resend itself
fails validation, `last_http_error` holds the original 401 error, not
the resend's failure. -/
theorem send_last_error_tracking (st : ClientState)
    (headers refreshed : Headers) (r r2 : HttpResponse) (second : DoResult) :
    (validate_response r = none →
      (send_request_step st headers (DoResult.gotResponse r) refreshed
        second).state.lastHttpError = none) ∧
    (∀ e, validate_response r = some e → retry_condition st e = false →
      (send_request_step st headers (DoResult.gotResponse r) refreshed
        second).state.lastHttpError = some e ∧
      (send_request_step st headers (DoResult.gotResponse r) refreshed
        second).outcome = SendOutcome.raisedHttp e) ∧
    (∀ e, validate_response r = some e → retry_condition st e = true →
      validate_response r2 = none →
      (send_request_step st headers (DoResult.gotResponse r) refreshed
        (DoResult.gotResponse r2)).state.lastHttpError = none) ∧
    (∀ e e2, validate_response r = some e → retry_condition st e = true →
      validate_response r2 = some e2 →
      (send_request_step st headers (DoResult.gotResponse r) refreshed
        (DoResult.gotResponse r2)).state.lastHttpError = some e ∧
      (send_request_step st headers (DoResult.gotResponse r) refreshed
        (DoResult.gotResponse r2)).outcome = SendOutcome.raisedHttp e2) := by
  refine ⟨?_, ?_, ?_, ?_⟩
  · intro hv
    simp [send_request_step, hv]
  · intro e hv hrc
    simp [send_request_step, hv, hrc]
  · intro e hv hrc hv2
    simp [send_request_step, hv, hrc, hv2]
  · intro e e2 hv hrc hv2
    simp [send_request_step, hv, hrc, hv2]

/-- Witness for C5 (amended): all four branches at concrete inputs. -/
theorem send_last_error_tracking_witness :
    ((send_request_step ⟨true, none, none, 0⟩ []
      (DoResult.gotResponse ⟨200, "OK", [], []⟩) []
      (DoResult.raisedExc 3)).state.lastHttpError = none) ∧
    ((send_request_step ⟨false, none, none, 0⟩ []
      (DoResult.gotResponse ⟨404, "NF", [], []⟩) []
      (DoResult.raisedExc 3)).state.lastHttpError =
        some ⟨404, "NF", [], []⟩ ∧
     (send_request_step ⟨false, none, none, 0⟩ []
      (DoResult.gotResponse ⟨404, "NF", [], []⟩) []
      (DoResult.raisedExc 3)).outcome =
        SendOutcome.raisedHttp ⟨404, "NF", [], []⟩) ∧
    ((send_request_step ⟨true, none, none, 0⟩ []
      (DoResult.gotResponse ⟨401, "U", [], []⟩) []
      (DoResult.gotResponse ⟨200, "OK", [], []⟩)).state.lastHttpError
        = none) ∧
    ((send_request_step ⟨true, none, none, 0⟩ []
      (DoResult.gotResponse ⟨401, "U", [], []⟩) []
      (DoResult.gotResponse ⟨502, "BG", [], []⟩)).state.lastHttpError =
        some ⟨401, "U", [], []⟩ ∧
     (send_request_step ⟨true, none, none, 0⟩ []
      (DoResult.gotResponse ⟨401, "U", [], []⟩) []
      (DoResult.gotResponse ⟨502, "BG", [], []⟩)).outcome =
        SendOutcome.raisedHttp ⟨502, "BG", [], []⟩) := by
  refine ⟨?_, ?_, ?_, ?_⟩
  · exact (send_last_error_tracking ⟨true, none, none, 0⟩ [] []
      ⟨200, "OK", [], []⟩ ⟨200, "OK", [], []⟩ (DoResult.raisedExc 3)).1
      (by decide)
  · exact (send_last_error_tracking ⟨false, none, none, 0⟩ [] []
      ⟨404, "NF", [], []⟩ ⟨200, "OK", [], []⟩ (DoResult.raisedExc 3)).2.1
      ⟨404, "NF", [], []⟩ (by decide) (by decide)
  · exact (send_last_error_tracking ⟨true, none, none, 0⟩ [] []
      ⟨401, "U", [], []⟩ ⟨200, "OK", [], []⟩
      (DoResult.gotResponse ⟨200, "OK", [], []⟩)).2.2.1
      ⟨401, "U", [], []⟩ (by decide) (by decide) (by decide)
  · exact (send_last_error_tracking ⟨true, none, none, 0⟩ [] []
      ⟨401, "U", [], []⟩ ⟨502, "BG", [], []⟩
      (DoResult.gotResponse ⟨502, "BG", [], []⟩)).2.2.2
      ⟨401, "U", [], []⟩ ⟨502, "BG", [], []⟩
      (by decide) (by decide) (by decide)

/-- Counterexample to C6 as stated: a transient exception raised by the
401-recovery resend propagates while the connection generation is left
unchanged (no close-and-replace), because an exception raised inside the
`except HttpError` handler is not caught by the `except Exception`
clause of the same `try`. -/
theorem send_resend_exc_connection_cex :
    (send_request_step ⟨true, none, none, 5⟩ []
      (DoResult.gotResponse ⟨401, "Unauthorized", [], []⟩)
      [("Authorization", "t2")]
      (DoResult.raisedExc 7)).outcome = SendOutcome.raisedTransient 7 ∧
    (send_request_step ⟨true, none, none, 5⟩ []
      (DoResult.gotResponse ⟨401, "Unauthorized", [], []⟩)
      [("Authorization", "t2")]
      (DoResult.raisedExc 7)).state.connectionGen = 5 := by
  refine ⟨by decide, by decide⟩

/-- C6 (amended): a non-`HttpError` exception escaping the initial
send/validate causes the connection to be closed and replaced (generation
incremented) before the exception propagates; an exception raised during
the 401-recovery resend propagates with the connection left as is. -/
theorem send_connection_hygiene (st : ClientState)
    (headers refreshed : Headers) (t : Nat) (r : HttpResponse) :
    ((send_request_step st headers (DoResult.raisedExc t) refreshed
        (DoResult.raisedExc t)).outcome = SendOutcome.raisedTransient t ∧
      (send_request_step st headers (DoResult.raisedExc t) refreshed
        (DoResult.raisedExc t)).state.connectionGen =
        st.connectionGen + 1) ∧
    (∀ e, validate_response r = some e → retry_condition st e = true →
      (send_request_step st headers (DoResult.gotResponse r) refreshed
        (DoResult.raisedExc t)).outcome = SendOutcome.raisedTransient t ∧
      (send_request_step st headers (DoResult.gotResponse r) refreshed
        (DoResult.raisedExc t)).state.connectionGen = st.connectionGen) := by
  constructor
  · constructor <;> simp [send_request_step]
  · intro e hv hrc
    constructor <;> simp [send_request_step, hv, hrc]

/-- Witness for C6 (amended) at concrete states. -/
theorem send_connection_hygiene_witness :
    ((send_request_step ⟨false, none, none, 2⟩ [] (DoResult.raisedExc 9) []
        (DoResult.raisedExc 9)).outcome = SendOutcome.raisedTransient 9 ∧
      (send_request_step ⟨false, none, none, 2⟩ [] (DoResult.raisedExc 9) []
        (DoResult.raisedExc 9)).state.connectionGen = 3) ∧
    ((send_request_step ⟨true, none, none, 2⟩ []
        (DoResult.gotResponse ⟨401, "U", [], []⟩) []
        (DoResult.raisedExc 9)).outcome = SendOutcome.raisedTransient 9 ∧
      (send_request_step ⟨true, none, none, 2⟩ []
        (DoResult.gotResponse ⟨401, "U", [], []⟩) []
        (DoResult.raisedExc 9)).state.connectionGen = 2) := by
  constructor
  · exact (send_connection_hygiene ⟨false, none, none, 2⟩ [] [] 9
      ⟨401, "U", [], []⟩).1
  · exact (send_connection_hygiene ⟨true, none, none, 2⟩ [] [] 9
      ⟨401, "U", [], []⟩).2 ⟨401, "U", [], []⟩ (by decide) (by decide)

/-- State of a raw HTTP response object: whether its body has been fully
read and whether it has been closed. -/
structure ResponseState where
  isRead : Bool
  isClosed : Bool
deriving DecidableEq

/-- Result of `ResponseContextManager.__exit__`: the response state, the
connection's closed flag, and the value returned to the interpreter
(`true` would suppress the in-scope exception). -/
structure ExitResult where
  response : ResponseState
  connectionClosed : Bool
  suppress : Bool
deriving DecidableEq

/-- `ResponseContextManager.__exit__`: with `keepalive`, read and close
the response and leave the connection alone; otherwise close the
client's connection and leave the response alone; always return `False`.
The exception arguments (`excPresent`) are ignored. -/
def response_cm_exit (keepalive : Bool) (resp : ResponseState)
    (connectionClosed : Bool) (_excPresent : Bool) : ExitResult :=
  if keepalive then
    { response := { isRead := true, isClosed := true },
      connectionClosed := connectionClosed, suppress := false }
  else
    { response := resp, connectionClosed := true, suppress := false }

/-- C9: on scope exit with keepalive the response is drained and closed
and the connection untouched; without keepalive the connection is closed
and the response not drained; exceptions are never suppressed. -/
theorem response_cm_exit_spec (resp : ResponseState)
    (connectionClosed : Bool) (excPresent : Bool) :
    response_cm_exit true resp connectionClosed excPresent =
      { response := { isRead := true, isClosed := true },
        connectionClosed := connectionClosed, suppress := false } ∧
    response_cm_exit false resp connectionClosed excPresent =
      { response := resp, connectionClosed := true, suppress := false } :=
  ⟨rfl, rfl⟩

/-- A request body as `_send_request`/`_do_request` see it: either a plain
byte sequence (Python `basestring`) or an arbitrary chunk-producing
source (an object with a `chunks(chunk_size)` method yielding successive
byte chunks, per the chunk-producer collaborator contract). -/
inductive ReqData where
  | bytesData (s : List Char)
  | sourceData (chunksOf : Nat → List (List Char))

/-- Python truthiness of the `data` argument: `None` and the empty byte
string are falsy; a chunk-producing object is truthy. -/
def dataTruthy : Option ReqData → Bool
  | none => false
  | some (ReqData.bytesData s) => !s.isEmpty
  | some (ReqData.sourceData _) => true

/-- Lines 205-207 of `_send_request`: `if data and data_size is None:
if isinstance(data, basestring): data_size = len(data)`. -/
def effectiveDataSize (data : Option ReqData) (dataSize : Option Nat) :
    Option Nat :=
  if dataTruthy data && dataSize.isNone then
    match data with
    | some (ReqData.bytesData s) => some s.length
    | _ => dataSize
  else dataSize

/-- `RestClient.default_headers`: `Content-Length` set to
`str(data_size or 0)`, then the cached auth headers merged in when they
are truthy (a non-empty mapping). -/
def default_headers (authHeaders : Option Headers) (dataSize : Option Nat) :
    Headers :=
  let base : Headers := [("Content-Length", toString (dataSize.getD 0))]
  match authHeaders with
  | some ah => if !ah.isEmpty then hdrUpdate base ah else base
  | none => base

/-- Lines 209-213 of `_send_request`: default headers for the effective
size, then the caller's headers merged in when they are truthy. -/
def merged_headers (authHeaders userHeaders : Option Headers)
    (ds : Option Nat) : Headers :=
  let headers := default_headers authHeaders ds
  match userHeaders with
  | some uh => if !uh.isEmpty then hdrUpdate headers uh else headers
  | none => headers

/-- Lines 214-216 of `_send_request`: for a truthy body of undeterminable
size, delete `Content-Length` and set `Transfer-Encoding: chunked` on
the merged headers. -/
def prepare_headers (authHeaders userHeaders : Option Headers)
    (data : Option ReqData) (dataSize : Option Nat) : Headers :=
  let ds := effectiveDataSize data dataSize
  let headers := merged_headers authHeaders userHeaders ds
  if dataTruthy data && ds.isNone then
    hdrSet (hdrDel headers "Content-Length") "Transfer-Encoding" "chunked"
  else headers

/-- The external chunk-producer collaborator (`BasicChunker`) applied to
a plain byte sequence: successive chunks of at most `n` bytes covering
the sequence in order (spec section 6's chunk-producer contract). -/
def basicChunks (n : Nat) : List Char → List (List Char)
  | [] => []
  | c :: cs =>
      if _h : n = 0 then [c :: cs]
      else (c :: cs).take n :: basicChunks n ((c :: cs).drop n)
termination_by l => l.length
decreasing_by
  simp [List.length_drop]
  omega

/-- One chunk in chunked transfer framing:
`"%x\r\n%s\r\n" % (len(chunk), chunk)`. -/
def chunkFrame (c : List Char) : List Char :=
  Nat.toDigits 16 c.length ++ ['\r', '\n'] ++ c ++ ['\r', '\n']

/-- The terminating zero-length chunk `"0\r\n\r\n"`. -/
def chunkTerminator : List Char := ['0', '\r', '\n', '\r', '\n']

/-- `data.chunks(chunk_size)` after the `BasicChunker` wrap in
`_do_request`: a plain byte sequence goes through the chunker, a
chunk-producing source is used as is. -/
def data_chunks (d : ReqData) (chunkSize : Nat) : List (List Char) :=
  match d with
  | ReqData.bytesData s => basicChunks chunkSize s
  | ReqData.sourceData f => f chunkSize

/-- Body bytes put on the wire by `_do_request` (lines 261-271): nothing
for a falsy body; hex-size-framed chunks plus the zero-length terminator
when `data_size` is `None`; the chunks verbatim otherwise. -/
def do_request_body (data : Option ReqData) (dataSize : Option Nat)
    (chunkSize : Nat) : List Char :=
  if dataTruthy data then
    match data with
    | some d =>
        match dataSize with
        | none => ((data_chunks d chunkSize).map chunkFrame).flatten ++
            chunkTerminator
        | some _ => (data_chunks d chunkSize).flatten
    | none => []
  else []

/-- `_send_request`'s observable wire behaviour for one request: the
prepared header mapping and the body bytes sent, with the effective
`data_size` (recomputed at lines 205-207) passed down to `_do_request`. -/
def send_request_wire (authHeaders userHeaders : Option Headers)
    (data : Option ReqData) (dataSize : Option Nat) (chunkSize : Nat) :
    Headers × List Char :=
  (prepare_headers authHeaders userHeaders data dataSize,
   do_request_body data (effectiveDataSize data dataSize) chunkSize)
theorem hdrGet_map_set_ne (t : Headers) (k v k' : String)
    (hne : (k == k') = false) :
    hdrGet (t.map (fun p => if p.1 == k then (k, v) else p)) k' =
      hdrGet t k' := by
  induction t with
  | nil => rfl
  | cons p t ih =>
      by_cases hp : p.1 == k
      · have hp1 : (p.1 == k') = false := by
          have h1 : p.1 = k := by simpa using hp
          rw [h1]; exact hne
        simpa [hdrGet, hp, hp1, hne] using ih
      · by_cases hp2 : p.1 == k'
        · simp [hdrGet, hp, hp2]
        · simpa [hdrGet, hp, hp2] using ih

theorem hdrGet_append_single_ne (t : Headers) (k v k' : String)
    (hne : (k == k') = false) :
    hdrGet (t ++ [(k, v)]) k' = hdrGet t k' := by
  induction t with
  | nil => simp [hdrGet, hne]
  | cons p t ih =>
      by_cases hp : p.1 == k'
      · simp [hdrGet, hp]
      · simpa [hdrGet, hp] using ih

theorem hdrGet_hdrSet_ne (h : Headers) (k v k' : String)
    (hne : (k == k') = false) :
    hdrGet (hdrSet h k v) k' = hdrGet h k' := by
  cases ha : h.any (fun p => p.1 == k) with
  | true =>
      have := hdrGet_map_set_ne h k v k' hne
      simpa [hdrSet, ha] using this
  | false =>
      have := hdrGet_append_single_ne h k v k' hne
      simpa [hdrSet, ha] using this

theorem hdrGet_map_set_self (t : Headers) (k v : String)
    (ha : t.any (fun p => p.1 == k) = true) :
    hdrGet (t.map (fun p => if p.1 == k then (k, v) else p)) k = some v := by
  induction t with
  | nil => simp at ha
  | cons p t ih =>
      by_cases hp : p.1 == k
      · simp [hdrGet, hp]
      · simp only [List.any_cons, hp, Bool.false_or] at ha
        simpa [hdrGet, hp] using ih ha

theorem hdrGet_append_single_self (t : Headers) (k v : String)
    (ha : t.any (fun p => p.1 == k) = false) :
    hdrGet (t ++ [(k, v)]) k = some v := by
  induction t with
  | nil => simp [hdrGet]
  | cons p t ih =>
      simp only [List.any_cons, Bool.or_eq_false_iff] at ha
      simpa [hdrGet, ha.1] using ih ha.2

theorem hdrGet_hdrSet_self (h : Headers) (k v : String) :
    hdrGet (hdrSet h k v) k = some v := by
  cases ha : h.any (fun p => p.1 == k) with
  | true =>
      have := hdrGet_map_set_self h k v ha
      simpa [hdrSet, ha] using this
  | false =>
      have := hdrGet_append_single_self h k v ha
      simpa [hdrSet, ha] using this

theorem hdrGet_hdrDel_self (h : Headers) (k : String) :
    hdrGet (hdrDel h k) k = none := by
  induction h with
  | nil => rfl
  | cons p t ih =>
      by_cases hp : p.1 == k
      · simpa [hdrDel, List.filter, hp] using ih
      · simpa [hdrDel, List.filter, hdrGet, hp] using ih

theorem hdrGet_hdrUpdate_no_key (upd : Headers) (k : String)
    (hk : ∀ p ∈ upd, (p.1 == k) = false) :
    ∀ h : Headers, hdrGet (hdrUpdate h upd) k = hdrGet h k := by
  induction upd with
  | nil => intro h; rfl
  | cons q u ih =>
      intro h
      have hq : (q.1 == k) = false := hk q (List.mem_cons_self q u)
      have hu : ∀ p ∈ u, (p.1 == k) = false := fun p hp =>
        hk p (List.mem_cons_of_mem q hp)
      show hdrGet (hdrUpdate (hdrSet h q.1 q.2) u) k = hdrGet h k
      rw [ih hu (hdrSet h q.1 q.2)]
      exact hdrGet_hdrSet_ne h q.1 q.2 k hq

/-- The chunk-producer contract: the produced chunks concatenate back to
the original byte sequence. -/
theorem basicChunks_flatten (n : Nat) (s : List Char) :
    (basicChunks n s).flatten = s := by
  induction s using basicChunks.induct n with
  | case1 => simp [basicChunks]
  | case2 c cs h => simp [basicChunks, h]
  | case3 c cs h ih =>
      rw [basicChunks]
      simp [h, ih]

/-- Caller-supplied header mappings that do not themselves bind the two
framing headers the client computes (`Content-Length`,
`Transfer-Encoding`). -/
def cleanFramingHeaders : Option Headers → Bool
  | none => true
  | some h => h.all (fun p =>
      !(p.1 == "Content-Length") && !(p.1 == "Transfer-Encoding"))

theorem cleanFramingHeaders_some (h : Headers)
    (hC : cleanFramingHeaders (some h) = true) :
    (∀ p ∈ h, (p.1 == "Content-Length") = false) ∧
    (∀ p ∈ h, (p.1 == "Transfer-Encoding") = false) := by
  simp only [cleanFramingHeaders, List.all_eq_true, Bool.and_eq_true,
    Bool.not_eq_true'] at hC
  exact ⟨fun p hp => (hC p hp).1, fun p hp => (hC p hp).2⟩

theorem default_headers_lookup (authHeaders : Option Headers)
    (ds : Option Nat) (hA : cleanFramingHeaders authHeaders = true) :
    hdrGet (default_headers authHeaders ds) "Content-Length" =
      some (toString (ds.getD 0)) ∧
    hdrGet (default_headers authHeaders ds) "Transfer-Encoding" = none := by
  have hbase1 : hdrGet [("Content-Length", toString (ds.getD 0))]
      "Content-Length" = some (toString (ds.getD 0)) := by
    simp [hdrGet]
  have hbase2 : hdrGet [("Content-Length", toString (ds.getD 0))]
      "Transfer-Encoding" = none := by
    have : ("Content-Length" == "Transfer-Encoding") = false := by decide
    simp [hdrGet, this]
  cases authHeaders with
  | none => exact ⟨hbase1, hbase2⟩
  | some ah =>
      rcases cleanFramingHeaders_some ah hA with ⟨h1, h2⟩
      cases he : ah.isEmpty with
      | true => simpa [default_headers, he] using ⟨hbase1, hbase2⟩
      | false =>
          simp only [default_headers, he, Bool.not_false, if_true]
          rw [hdrGet_hdrUpdate_no_key ah "Content-Length" h1,
            hdrGet_hdrUpdate_no_key ah "Transfer-Encoding" h2]
          exact ⟨hbase1, hbase2⟩

theorem merged_headers_lookup (authHeaders userHeaders : Option Headers)
    (ds : Option Nat) (hA : cleanFramingHeaders authHeaders = true)
    (hU : cleanFramingHeaders userHeaders = true) :
    hdrGet (merged_headers authHeaders userHeaders ds) "Content-Length" =
      some (toString (ds.getD 0)) ∧
    hdrGet (merged_headers authHeaders userHeaders ds) "Transfer-Encoding" =
      none := by
  rcases default_headers_lookup authHeaders ds hA with ⟨hCL, hTE⟩
  cases userHeaders with
  | none => exact ⟨hCL, hTE⟩
  | some uh =>
      rcases cleanFramingHeaders_some uh hU with ⟨h1, h2⟩
      cases he : uh.isEmpty with
      | true => simpa [merged_headers, he] using ⟨hCL, hTE⟩
      | false =>
          simp only [merged_headers, he, Bool.not_false, if_true]
          rw [hdrGet_hdrUpdate_no_key uh "Content-Length" h1,
            hdrGet_hdrUpdate_no_key uh "Transfer-Encoding" h2]
          exact ⟨hCL, hTE⟩

/-- C8: a truthy body of no determinable size is sent chunked
(`Content-Length` removed, `Transfer-Encoding: chunked` set, body as
hex-size-prefixed chunks plus the zero-length terminator); a request
with a known size carries `Content-Length` equal to that size and its
body bytes verbatim with no chunked framing; a plain byte body's size is
computed as its length; and no body bytes are sent for a falsy body.
Caller-supplied and auth headers are assumed not to bind the two framing
headers themselves. -/
theorem send_request_wire_spec (authHeaders userHeaders : Option Headers)
    (chunkSize : Nat)
    (hA : cleanFramingHeaders authHeaders = true)
    (hU : cleanFramingHeaders userHeaders = true) :
    (∀ f,
      hdrGet (send_request_wire authHeaders userHeaders
        (some (ReqData.sourceData f)) none chunkSize).1 "Content-Length" =
        none ∧
      hdrGet (send_request_wire authHeaders userHeaders
        (some (ReqData.sourceData f)) none chunkSize).1 "Transfer-Encoding" =
        some "chunked" ∧
      (send_request_wire authHeaders userHeaders
        (some (ReqData.sourceData f)) none chunkSize).2 =
        ((f chunkSize).map chunkFrame).flatten ++ chunkTerminator) ∧
    (∀ data n,
      hdrGet (send_request_wire authHeaders userHeaders data (some n)
        chunkSize).1 "Content-Length" = some (toString n) ∧
      hdrGet (send_request_wire authHeaders userHeaders data (some n)
        chunkSize).1 "Transfer-Encoding" = none ∧
      (∀ s, data = some (ReqData.bytesData s) → s ≠ [] →
        (send_request_wire authHeaders userHeaders data (some n)
          chunkSize).2 = s) ∧
      (∀ f, data = some (ReqData.sourceData f) →
        (send_request_wire authHeaders userHeaders data (some n)
          chunkSize).2 = (f chunkSize).flatten)) ∧
    (∀ s, s ≠ [] →
      hdrGet (send_request_wire authHeaders userHeaders
        (some (ReqData.bytesData s)) none chunkSize).1 "Content-Length" =
        some (toString s.length) ∧
      hdrGet (send_request_wire authHeaders userHeaders
        (some (ReqData.bytesData s)) none chunkSize).1 "Transfer-Encoding" =
        none ∧
      (send_request_wire authHeaders userHeaders
        (some (ReqData.bytesData s)) none chunkSize).2 = s) ∧
    (∀ data ds, dataTruthy data = false →
      (send_request_wire authHeaders userHeaders data ds chunkSize).2 =
        []) := by
  have hTECL : ("Transfer-Encoding" == "Content-Length") = false := by decide
  refine ⟨?_, ?_, ?_, ?_⟩
  · intro f
    have hprep : prepare_headers authHeaders userHeaders
        (some (ReqData.sourceData f)) none =
        hdrSet (hdrDel (merged_headers authHeaders userHeaders none)
          "Content-Length") "Transfer-Encoding" "chunked" := rfl
    refine ⟨?_, ?_, rfl⟩
    · show hdrGet (prepare_headers authHeaders userHeaders
        (some (ReqData.sourceData f)) none) "Content-Length" = none
      rw [hprep, hdrGet_hdrSet_ne _ _ _ _ hTECL, hdrGet_hdrDel_self]
    · show hdrGet (prepare_headers authHeaders userHeaders
        (some (ReqData.sourceData f)) none) "Transfer-Encoding" =
        some "chunked"
      rw [hprep, hdrGet_hdrSet_self]
  · intro data n
    have heff : effectiveDataSize data (some n) = some n := by
      simp [effectiveDataSize]
    have hprep : prepare_headers authHeaders userHeaders data (some n) =
        merged_headers authHeaders userHeaders (some n) := by
      simp [prepare_headers, heff]
    rcases merged_headers_lookup authHeaders userHeaders (some n) hA hU
      with ⟨hCL, hTE⟩
    refine ⟨?_, ?_, ?_, ?_⟩
    · show hdrGet (prepare_headers authHeaders userHeaders data (some n))
        "Content-Length" = some (toString n)
      rw [hprep]
      simpa using hCL
    · show hdrGet (prepare_headers authHeaders userHeaders data (some n))
        "Transfer-Encoding" = none
      rw [hprep]
      exact hTE
    · intro s hdata hs
      subst hdata
      have hne : s.isEmpty = false := by
        cases s with
        | nil => exact absurd rfl hs
        | cons a t => rfl
      show do_request_body (some (ReqData.bytesData s))
        (effectiveDataSize (some (ReqData.bytesData s)) (some n))
        chunkSize = s
      rw [heff]
      simp [do_request_body, dataTruthy, hne, data_chunks, basicChunks_flatten]
    · intro f hdata
      subst hdata
      show do_request_body (some (ReqData.sourceData f))
        (effectiveDataSize (some (ReqData.sourceData f)) (some n))
        chunkSize = (f chunkSize).flatten
      rw [heff]
      simp [do_request_body, dataTruthy, data_chunks]
  · intro s hs
    have hne : s.isEmpty = false := by
      cases s with
      | nil => exact absurd rfl hs
      | cons a t => rfl
    have heff : effectiveDataSize (some (ReqData.bytesData s)) none =
        some s.length := by
      simp [effectiveDataSize, dataTruthy, hne]
    have hprep : prepare_headers authHeaders userHeaders
        (some (ReqData.bytesData s)) none =
        merged_headers authHeaders userHeaders (some s.length) := by
      simp [prepare_headers, heff]
    rcases merged_headers_lookup authHeaders userHeaders (some s.length)
      hA hU with ⟨hCL, hTE⟩
    refine ⟨?_, ?_, ?_⟩
    · show hdrGet (prepare_headers authHeaders userHeaders
        (some (ReqData.bytesData s)) none) "Content-Length" =
        some (toString s.length)
      rw [hprep]
      simpa using hCL
    · show hdrGet (prepare_headers authHeaders userHeaders
        (some (ReqData.bytesData s)) none) "Transfer-Encoding" = none
      rw [hprep]
      exact hTE
    · show do_request_body (some (ReqData.bytesData s))
        (effectiveDataSize (some (ReqData.bytesData s)) none) chunkSize = s
      rw [heff]
      simp [do_request_body, dataTruthy, hne, data_chunks, basicChunks_flatten]
  · intro data ds hfalse
    show do_request_body data (effectiveDataSize data ds) chunkSize = []
    simp [do_request_body, hfalse]

/-- Witness for C8: a two-chunk source body is framed and terminated, a
two-byte plain body gets `Content-Length: 2` and goes out verbatim. -/
theorem send_request_wire_spec_witness :
    hdrGet (send_request_wire (some [("X-Auth", "tok")])
      (some [("Accept", "a")])
      (some (ReqData.sourceData (fun _ => [['a', 'b'], ['c']]))) none 4).1
      "Content-Length" = none ∧
    hdrGet (send_request_wire (some [("X-Auth", "tok")])
      (some [("Accept", "a")])
      (some (ReqData.sourceData (fun _ => [['a', 'b'], ['c']]))) none 4).1
      "Transfer-Encoding" = some "chunked" ∧
    (send_request_wire (some [("X-Auth", "tok")]) (some [("Accept", "a")])
      (some (ReqData.sourceData (fun _ => [['a', 'b'], ['c']]))) none 4).2 =
      ['2', '\r', '\n', 'a', 'b', '\r', '\n', '1', '\r', '\n', 'c',
       '\r', '\n', '0', '\r', '\n', '\r', '\n'] ∧
    hdrGet (send_request_wire (some [("X-Auth", "tok")])
      (some [("Accept", "a")])
      (some (ReqData.bytesData ['h', 'i'])) none 4).1 "Content-Length" =
      some "2" ∧
    (send_request_wire (some [("X-Auth", "tok")]) (some [("Accept", "a")])
      (some (ReqData.bytesData ['h', 'i'])) none 4).2 = ['h', 'i'] := by
  obtain ⟨h1, h2, h3, h4⟩ := send_request_wire_spec
    (some [("X-Auth", "tok")]) (some [("Accept", "a")]) 4
    (by decide) (by decide)
  have hf := h1 (fun _ => [['a', 'b'], ['c']])
  have hb := h3 ['h', 'i'] (by decide)
  refine ⟨hf.1, hf.2.1, ?_, ?_, hb.2.2⟩
  · rw [hf.2.2]
    rfl
  · rw [hb.1]
    rfl
